import Mathlib

/-!
Verification of the property-listing cache-aside module.

Shallow embedding of `properties/utils.py`, `properties/signals.py` and
`properties/views.py`. The external Django cache for the single key
`all_properties` is modelled as an `Option CacheEntry`; the Store as a
`List Property`; log calls as returned `LogEntry` values carrying their
severity; the Redis connection of the metrics path as an
`Except String RedisInfo` (exception message or INFO record).
-/

namespace PropertyListings

/-- Severity levels of the logging calls (`logger.info` / `logger.warning` /
`logger.error`). -/
inductive Severity where
  | info
  | warning
  | error
deriving DecidableEq, Repr

/-- A single log line: severity and message text. -/
structure LogEntry where
  severity : Severity
  message : String
deriving DecidableEq, Repr

/-- Modelled from the spec: the `created_at` timestamp of a Property
(`models.py` is not part of the sources; the spec gives
"created_at (timestamp, set at creation, immutable)"). -/
structure DateTime where
  year : Nat
  month : Nat
  day : Nat
  hour : Nat
  minute : Nat
  second : Nat
deriving DecidableEq, Repr

/-- Linearization key of a timestamp: lexicographic encoding of
(year, month, day, hour, minute, second); monotone in time order. -/
def DateTime.key (t : DateTime) : Nat :=
  ((((t.year * 13 + t.month) * 32 + t.day) * 24 + t.hour) * 60 + t.minute) * 60
    + t.second

/-- Modelled from the spec: the Property record — "id (unique, stable),
title (text), description (text), price (decimal, non-negative by
convention), location (text), created_at (timestamp)". The decimal price
is held in cents. -/
structure Property where
  id : Nat
  title : String
  description : String
  priceCents : Nat
  location : String
  created_at : DateTime
deriving DecidableEq, Repr

/-- A value stored in the cache under the fixed key `all_properties`:
the materialized property list together with the TTL it was set with. -/
structure CacheEntry where
  value : List Property
  ttl : Nat
deriving DecidableEq, Repr

/-- The cache projected to the single key `all_properties`:
`none` means the key is absent (or expired). -/
abbrev Cache := Option CacheEntry

/-- Django `cache.get(key)`: the stored value, or `None` when absent. -/
def cacheGet (c : Cache) : Option (List Property) :=
  c.map CacheEntry.value

/-- Django `cache.set(key, value, ttl)` for the fixed key. -/
def cacheSet (l : List Property) (ttl : Nat) : Cache :=
  some ⟨l, ttl⟩

/-- Django `cache.delete(key)`: returns whether a value was removed,
together with the cache afterwards (the key is gone either way). -/
def cacheDelete (c : Cache) : Bool × Cache :=
  (c.isSome, none)

/-- Descending creation-time order used by the Store query
`order_by(-created_at)`: `a` comes before `b` when `b` was created no
later than `a`. -/
def createdDesc (a b : Property) : Prop :=
  b.created_at.key ≤ a.created_at.key

instance : DecidableRel createdDesc :=
  fun a b => decidable_of_iff (b.created_at.key ≤ a.created_at.key) Iff.rfl

instance : IsTotal Property createdDesc :=
  ⟨fun a b => Nat.le_total b.created_at.key a.created_at.key⟩

instance : IsTrans Property createdDesc :=
  ⟨fun _ _ _ h1 h2 => Nat.le_trans h2 h1⟩

/-- The Store query `Property.objects.all().order_by(-created_at)`:
every record, ordered by creation time descending. -/
def orderByCreatedAtDesc (store : List Property) : List Property :=
  List.insertionSort createdDesc store

/-- Result of `get_all_properties`: the returned sequence, the cache
afterwards, and whether the Store was queried (the query-count probe). -/
structure FetchResult where
  result : List Property
  cache : Cache
  queriedStore : Bool
deriving DecidableEq, Repr

/-- Embedding of `utils.get_all_properties`: look up the fixed key; on a
hit return the cached sequence unchanged; on a miss load from the Store
ordered by `created_at` descending, materialize to a list, cache it with
TTL 3600 and return it. -/
def get_all_properties (store : List Property) (c : Cache) : FetchResult :=
  match cacheGet c with
  | some cached_properties => ⟨cached_properties, c, false⟩
  | none =>
      let properties_list := orderByCreatedAtDesc store
      ⟨properties_list, cacheSet properties_list 3600, true⟩

/-- Result of `invalidate_properties_cache`: the boolean returned, the
cache afterwards, and the log line emitted. -/
structure InvalidateResult where
  result : Bool
  cache : Cache
  log : LogEntry
deriving DecidableEq, Repr

/-- Embedding of `utils.invalidate_properties_cache`: delete the fixed
key, log success at info / failure-to-find at warning, return whether a
value was removed. -/
def invalidate_properties_cache (c : Cache) : InvalidateResult :=
  let d := cacheDelete c
  if d.1 then
    ⟨d.1, d.2, ⟨Severity.info, "Successfully invalidated cache for key all_properties"⟩⟩
  else
    ⟨d.1, d.2, ⟨Severity.warning, "Failed to invalidate cache for key all_properties (may not exist)"⟩⟩

/-- Information record returned by `get_cache_info`; `existsKey` models
the `exists` entry, `data_type` the runtime type name of the cached value
(`None` when absent). -/
structure CacheInfo where
  cache_key : String
  existsKey : Bool
  count : Nat
  data_type : Option String
deriving DecidableEq, Repr

/-- Embedding of `utils.get_cache_info`: read the fixed key and report
presence, item count (0 when absent) and the runtime type name of the
cached value; the cache itself is returned unchanged. -/
def get_cache_info (c : Cache) : CacheInfo × Cache :=
  match cacheGet c with
  | some cached_data =>
      (⟨"all_properties", true, cached_data.length, some "list"⟩, c)
  | none =>
      (⟨"all_properties", false, 0, none⟩, c)

/-- The Redis `INFO` record the metrics path reads on success. -/
structure RedisInfo where
  keyspace_hits : Nat
  keyspace_misses : Nat
  redis_version : String
  used_memory : Nat
  used_memory_human : String
  connected_clients : Nat
  total_commands_processed : Nat
  instantaneous_ops_per_sec : Nat
deriving DecidableEq, Repr

/-- The metrics record returned by `get_redis_cache_metrics`; `error` is
present only on the failure path. -/
structure Metrics where
  keyspace_hits : Nat
  keyspace_misses : Nat
  total_requests : Nat
  hit_ratio : ℚ
  miss_ratio : ℚ
  redis_version : String
  used_memory : Nat
  used_memory_human : String
  connected_clients : Nat
  total_commands_processed : Nat
  instantaneous_ops_per_sec : Nat
  cache_efficiency : String
  error : Option String
deriving DecidableEq, Repr

/-- Round-half-to-even to an integer, as Python `round` does. -/
def roundHalfEven (x : ℚ) : ℤ :=
  let f := ⌊x⌋
  let r := x - f
  if r < 1/2 then f
  else if 1/2 < r then f + 1
  else if f % 2 = 0 then f else f + 1

/-- Python `round(x, 2)`: round to two decimal places, half to even. -/
def round2 (x : ℚ) : ℚ :=
  (roundHalfEven (x * 100) : ℚ) / 100

/-- Embedding of `utils.get_redis_cache_metrics`: on a live connection,
derive totals, rounded hit/miss ratios and an efficiency label from the
INFO counters; on any connectivity failure, catch it and return the
zeroed record with efficiency `Error` and the exception text. -/
def get_redis_cache_metrics (conn : Except String RedisInfo) : Metrics :=
  match conn with
  | Except.ok redis_info =>
      let keyspace_hits := redis_info.keyspace_hits
      let keyspace_misses := redis_info.keyspace_misses
      let total_requests := keyspace_hits + keyspace_misses
      let hit_ratio : ℚ :=
        if 0 < total_requests then
          (keyspace_hits : ℚ) / (total_requests : ℚ) * 100
        else 0
      let miss_ratio : ℚ :=
        if 0 < total_requests then
          (keyspace_misses : ℚ) / (total_requests : ℚ) * 100
        else 0
      { keyspace_hits := keyspace_hits
        keyspace_misses := keyspace_misses
        total_requests := total_requests
        hit_ratio := round2 hit_ratio
        miss_ratio := round2 miss_ratio
        redis_version := redis_info.redis_version
        used_memory := redis_info.used_memory
        used_memory_human := redis_info.used_memory_human
        connected_clients := redis_info.connected_clients
        total_commands_processed := redis_info.total_commands_processed
        instantaneous_ops_per_sec := redis_info.instantaneous_ops_per_sec
        cache_efficiency :=
          if 90 ≤ hit_ratio then "Excellent"
          else if 70 ≤ hit_ratio then "Good"
          else if 50 ≤ hit_ratio then "Fair"
          else "Poor"
        error := none }
  | Except.error e =>
      { keyspace_hits := 0
        keyspace_misses := 0
        total_requests := 0
        hit_ratio := 0
        miss_ratio := 0
        redis_version := "Unknown"
        used_memory := 0
        used_memory_human := "0B"
        connected_clients := 0
        total_commands_processed := 0
        instantaneous_ops_per_sec := 0
        cache_efficiency := "Error"
        error := some e }

/-- Exact (unrounded) hit ratio of an INFO record, per the spec formula
`hit_ratio = hits/total*100 (0 if total=0)`. -/
def exactHitRatio (info : RedisInfo) : ℚ :=
  let total := info.keyspace_hits + info.keyspace_misses
  if 0 < total then (info.keyspace_hits : ℚ) / (total : ℚ) * 100 else 0

/-- Exact (unrounded) miss ratio of an INFO record, per the spec formula
`miss_ratio = misses/total*100 (0 if total=0)`. -/
def exactMissRatio (info : RedisInfo) : ℚ :=
  let total := info.keyspace_hits + info.keyspace_misses
  if 0 < total then (info.keyspace_misses : ℚ) / (total : ℚ) * 100 else 0

/-- Result of a signal handler: the cache afterwards, the value of the
local `cache_deleted`, and the log line emitted. -/
structure HandlerResult where
  cache : Cache
  cacheDeleted : Bool
  log : LogEntry
deriving DecidableEq, Repr

/-- Embedding of `signals.invalidate_cache_on_property_save` (post_save
handler): delete the fixed key and log, at info severity, which of the
two messages applies; `created` only selects the wording. -/
def invalidate_cache_on_property_save (created : Bool) (title : String)
    (c : Cache) : HandlerResult :=
  let d := cacheDelete c
  let action := if created then "created" else "updated"
  if d.1 then
    ⟨d.2, d.1,
      ⟨Severity.info,
        "Cache invalidated: Property " ++ title ++ " was " ++ action
          ++ ". Cache key all_properties removed from Redis."⟩⟩
  else
    ⟨d.2, d.1,
      ⟨Severity.info,
        "Property " ++ title ++ " was " ++ action
          ++ ". Cache key all_properties was not found (may have already expired)."⟩⟩

/-- Embedding of `signals.invalidate_cache_on_property_delete`
(post_delete handler): delete the fixed key and log, at info severity,
which of the two messages applies. -/
def invalidate_cache_on_property_delete (title : String) (c : Cache) :
    HandlerResult :=
  let d := cacheDelete c
  if d.1 then
    ⟨d.2, d.1,
      ⟨Severity.info,
        "Cache invalidated: Property " ++ title
          ++ " was deleted. Cache key all_properties removed from Redis."⟩⟩
  else
    ⟨d.2, d.1,
      ⟨Severity.info,
        "Property " ++ title
          ++ " was deleted. Cache key all_properties was not found (may have already expired)."⟩⟩

/-- Embedding of `signals.manual_cache_invalidation`: delete the fixed
key, log removal at info / not-found at warning, return the boolean. -/
def manual_cache_invalidation (c : Cache) : InvalidateResult :=
  let d := cacheDelete c
  if d.1 then
    ⟨d.1, d.2, ⟨Severity.info, "Manual cache invalidation: Cache key all_properties removed."⟩⟩
  else
    ⟨d.1, d.2, ⟨Severity.warning, "Manual cache invalidation: Cache key all_properties not found."⟩⟩

/-- The whole system's state: the Store contents and the cache. -/
structure State where
  store : List Property
  cache : Cache
deriving DecidableEq, Repr

/-- Creating a Property: the Store write commits, then the `post_save`
signal fires the handler with `created = True`. -/
def createProperty (p : Property) (s : State) : State :=
  ⟨s.store ++ [p], (invalidate_cache_on_property_save true p.title s.cache).cache⟩

/-- Updating a Property's title: the Store write commits, then the
`post_save` signal fires the handler with `created = False`. -/
def updatePropertyTitle (pid : Nat) (newTitle : String) (s : State) : State :=
  ⟨s.store.map fun q => if q.id = pid then { q with title := newTitle } else q,
    (invalidate_cache_on_property_save false newTitle s.cache).cache⟩

/-- Deleting a Property: the Store delete commits, then the `post_delete`
signal fires the handler. -/
def deleteProperty (pid : Nat) (s : State) : State :=
  ⟨s.store.filter fun q => q.id ≠ pid,
    (invalidate_cache_on_property_delete
      (((s.store.find? fun q => q.id = pid).map Property.title).getD "")
      s.cache).cache⟩

/-- Left-pad to two digits, as in ISO-8601 date and time components. -/
def pad2 (n : Nat) : String :=
  if n < 10 then "0" ++ toString n else toString n

/-- Modelled from the spec: `created_at.isoformat()` — the ISO-8601
rendering of the timestamp (`datetime.isoformat` is Python library code,
not in the sources). -/
def DateTime.isoformat (t : DateTime) : String :=
  toString t.year ++ "-" ++ pad2 t.month ++ "-" ++ pad2 t.day ++ "T"
    ++ pad2 t.hour ++ ":" ++ pad2 t.minute ++ ":" ++ pad2 t.second

/-- Modelled from the spec: `str(property.price)` — "price as
decimal-string" (Python `Decimal.__str__` is library code, not in the
sources); renders the cents value with two decimal places. -/
def priceString (cents : Nat) : String :=
  toString (cents / 100) ++ "." ++ pad2 (cents % 100)

/-- One serialized property record of the JSON payload. -/
structure PropertyJson where
  id : Nat
  title : String
  description : String
  price : String
  location : String
  created_at : String
deriving DecidableEq, Repr

/-- The dictionary the view appends for one property. -/
def serializeProperty (p : Property) : PropertyJson :=
  ⟨p.id, p.title, p.description, priceString p.priceCents, p.location,
    p.created_at.isoformat⟩

/-- The JSON body `{properties, count, cached}` of the listing view. -/
structure JsonBody where
  properties : List PropertyJson
  count : Nat
  cached : Bool
deriving DecidableEq, Repr

/-- Embedding of `views.property_list`: fetch via `get_all_properties`,
serialize each record in order, and return the body together with the
cache as the fetch left it. -/
def property_list (store : List Property) (c : Cache) : JsonBody × Cache :=
  let fr := get_all_properties store c
  let properties_data := fr.result.map serializeProperty
  ({ properties := properties_data
     count := properties_data.length
     cached := true }, fr.cache)

/-- Sample property created first (earliest `created_at`). -/
def prop1 : Property :=
  ⟨1, "Cozy Cottage", "Two-bedroom cottage with garden", 1250000, "Nakuru",
    ⟨2024, 1, 1, 10, 0, 0⟩⟩

/-- Sample property created second. -/
def prop2 : Property :=
  ⟨2, "City Flat", "Studio flat near the CBD", 800000, "Nairobi",
    ⟨2024, 1, 2, 10, 0, 0⟩⟩

/-- Sample property created third (latest `created_at`). -/
def prop3 : Property :=
  ⟨3, "Beach House", "Four-bedroom villa on the shore", 9900000, "Mombasa",
    ⟨2024, 1, 3, 10, 0, 0⟩⟩

/-- A Redis INFO record with the given hit and miss counters. -/
def mkInfo (hits misses : Nat) : RedisInfo :=
  ⟨hits, misses, "7.2.4", 1048576, "1.00M", 2, 100, 5⟩

theorem save_handler_cache_none (created : Bool) (t : String) (c : Cache) :
    (invalidate_cache_on_property_save created t c).cache = none := by
  cases c <;> rfl

theorem delete_handler_cache_none (t : String) (c : Cache) :
    (invalidate_cache_on_property_delete t c).cache = none := by
  cases c <;> rfl

/-- C1: each mutation's signal handler removes the `all_properties` key
synchronously, so the next fetch misses and reloads from the Store:
after a create the new Property is in the result regardless of prior
cache population; after a title update every result record with that id
carries the new title; after a delete no result record has the deleted
id. -/
theorem C1_signal_invalidation_read_after_write
    (s : State) (p : Property) (pid : Nat) (t : String) :
    (createProperty p s).cache = none ∧
    p ∈ (get_all_properties (createProperty p s).store
      (createProperty p s).cache).result ∧
    (updatePropertyTitle pid t s).cache = none ∧
    ((get_all_properties (updatePropertyTitle pid t s).store
        (updatePropertyTitle pid t s).cache).result.filter
      (fun q => q.id = pid)).all (fun q => q.title = t) = true ∧
    (deleteProperty pid s).cache = none ∧
    ((get_all_properties (deleteProperty pid s).store
        (deleteProperty pid s).cache).result.filter
      (fun q => q.id = pid)) = [] := by
  refine ⟨save_handler_cache_none _ _ _, ?_,
    save_handler_cache_none _ _ _, ?_,
    delete_handler_cache_none _ _, ?_⟩
  · rw [show (createProperty p s).cache = none from save_handler_cache_none _ _ _]
    exact (List.mem_insertionSort createdDesc).mpr (by simp [createProperty])
  · rw [show (updatePropertyTitle pid t s).cache = none from
      save_handler_cache_none _ _ _]
    rw [List.all_eq_true]
    intro q hq
    have hq1 := List.mem_filter.mp hq
    have hq2 : q ∈ (updatePropertyTitle pid t s).store :=
      (List.mem_insertionSort createdDesc).mp hq1.1
    rcases List.mem_map.mp hq2 with ⟨q0, _, rfl⟩
    by_cases h : q0.id = pid
    · simp [h]
    · have hid := hq1.2
      simp [h] at hid
  · rw [show (deleteProperty pid s).cache = none from
      delete_handler_cache_none _ _]
    rw [List.filter_eq_nil_iff]
    intro q hq
    have hq' : q ∈ (deleteProperty pid s).store :=
      (List.mem_insertionSort createdDesc).mp hq
    have hmem := List.mem_filter.mp hq'
    simp only [decide_eq_true_eq] at hmem ⊢
    exact hmem.2

/-- C1 witness: from a fully populated cache, creating a third property
clears the key and the next fetch contains it; deleting id 1 leaves no
record with id 1 in the next fetch. -/
theorem C1_signal_invalidation_read_after_write_witness :
    (createProperty prop3 ⟨[prop1, prop2], some ⟨[prop1, prop2], 3600⟩⟩).cache
      = none ∧
    prop3 ∈ (get_all_properties
      (createProperty prop3 ⟨[prop1, prop2], some ⟨[prop1, prop2], 3600⟩⟩).store
      (createProperty prop3 ⟨[prop1, prop2], some ⟨[prop1, prop2], 3600⟩⟩).cache).result ∧
    ((get_all_properties
        (deleteProperty 1 ⟨[prop1, prop2], some ⟨[prop1, prop2], 3600⟩⟩).store
        (deleteProperty 1 ⟨[prop1, prop2], some ⟨[prop1, prop2], 3600⟩⟩).cache).result.filter
      (fun q => q.id = 1)) = [] := by
  have h := C1_signal_invalidation_read_after_write
    ⟨[prop1, prop2], some ⟨[prop1, prop2], 3600⟩⟩ prop3 1 "New Title"
  exact ⟨h.1, h.2.1, h.2.2.2.2.2⟩

/-- C2: cache-aside contract of `get_all_properties` — a hit returns the
cached sequence unchanged with no Store query; a miss loads the Store
ordered by `created_at` descending (a sorted permutation of the Store),
caches it with TTL 3600 and reports a Store query; the follow-up call on
the populated cache returns the identical sequence without a query; and
three properties created at increasing times come back newest first. -/
theorem C2_get_all_properties_cache_aside
    (store : List Property) (e : CacheEntry) (p1 p2 p3 : Property)
    (h12 : p1.created_at.key < p2.created_at.key)
    (h23 : p2.created_at.key < p3.created_at.key) :
    (get_all_properties store (some e)).result = e.value ∧
    (get_all_properties store (some e)).cache = some e ∧
    (get_all_properties store (some e)).queriedStore = false ∧
    (get_all_properties store none).result = orderByCreatedAtDesc store ∧
    List.Sorted createdDesc (get_all_properties store none).result ∧
    List.Perm (get_all_properties store none).result store ∧
    (get_all_properties store none).cache
      = some ⟨(get_all_properties store none).result, 3600⟩ ∧
    (get_all_properties store none).queriedStore = true ∧
    (get_all_properties store (get_all_properties store none).cache).result
      = (get_all_properties store none).result ∧
    (get_all_properties store (get_all_properties store none).cache).queriedStore
      = false ∧
    (get_all_properties [p1, p2, p3] none).result = [p3, p2, p1] := by
  have n12 : ¬ createdDesc p1 p2 := Nat.not_le.mpr h12
  have n13 : ¬ createdDesc p1 p3 := Nat.not_le.mpr (Nat.lt_trans h12 h23)
  have n23 : ¬ createdDesc p2 p3 := Nat.not_le.mpr h23
  refine ⟨rfl, rfl, rfl, rfl,
    List.sorted_insertionSort createdDesc store,
    List.perm_insertionSort createdDesc store,
    rfl, rfl, rfl, rfl, ?_⟩
  show List.insertionSort createdDesc [p1, p2, p3] = [p3, p2, p1]
  simp [List.insertionSort, List.orderedInsert, n12, n13, n23]

/-- C2 witness: with three concrete properties created on successive
days, the cold fetch returns them newest first. -/
theorem C2_get_all_properties_cache_aside_witness :
    (get_all_properties [prop1, prop2, prop3] none).result
      = [prop3, prop2, prop1] := by
  have h := C2_get_all_properties_cache_aside [prop1, prop2, prop3]
    ⟨[], 3600⟩ prop1 prop2 prop3 (by decide) (by decide)
  exact h.2.2.2.2.2.2.2.2.2.2

/-- C7: the listing view serializes the fetched sequence in order, each
record mapped to its id, title, description, decimal-string price,
location and ISO-8601 `created_at`; `count` is the length of the
serialized list and `cached` is the constant true. -/
theorem C7_property_list_serialization (store : List Property) (c : Cache) :
    (property_list store c).1.properties
      = (get_all_properties store c).result.map
          (fun p => ⟨p.id, p.title, p.description, priceString p.priceCents,
            p.location, p.created_at.isoformat⟩) ∧
    (property_list store c).1.count = (property_list store c).1.properties.length ∧
    (property_list store c).1.count = (get_all_properties store c).result.length ∧
    (property_list store c).1.cached = true :=
  ⟨rfl, rfl, (List.length_map _ _).symm ▸ rfl, rfl⟩

/-- C3: `invalidate_properties_cache` deletes the fixed key and returns
whether a value was actually removed: key absent afterwards in every
case; twice in a row from a populated cache returns true then false;
from an absent key it returns false (and, being a total function, never
raises). -/
theorem C3_invalidate_properties_cache_spec (c : Cache) :
    (invalidate_properties_cache c).cache = none ∧
    (invalidate_properties_cache c).result = c.isSome ∧
    (c.isSome = true →
      (invalidate_properties_cache c).result = true ∧
      (invalidate_properties_cache (invalidate_properties_cache c).cache).result = false) ∧
    (c = none → (invalidate_properties_cache c).result = false) := by
  refine ⟨?_, ?_, ?_, ?_⟩ <;> cases c <;>
    simp [invalidate_properties_cache, cacheDelete]

/-- C3 witness: from a populated cache, invalidating twice returns true
then false. -/
theorem C3_invalidate_properties_cache_spec_witness :
    (invalidate_properties_cache (some ⟨[], 3600⟩)).result = true ∧
    (invalidate_properties_cache
      (invalidate_properties_cache (some ⟨[], 3600⟩)).cache).result = false :=
  (C3_invalidate_properties_cache_spec (some ⟨[], 3600⟩)).2.2.1 rfl

/-- C4 counterexample: a connectivity failure whose exception text is
empty yields an empty error description, refuting the claimed
non-emptiness of the error field. -/
theorem C4_counterexample :
    (get_redis_cache_metrics (Except.error "")).cache_efficiency = "Error" ∧
    (get_redis_cache_metrics (Except.error "")).error = some "" ∧
    ¬ (get_redis_cache_metrics (Except.error "")).error.getD "" ≠ "" := by
  refine ⟨rfl, rfl, ?_⟩
  simp [get_redis_cache_metrics]

/-- C4 (amended): every backend connectivity failure is caught and
yields the record with all numeric fields zeroed, efficiency `Error`,
and an error description equal to the exception's text — hence non-empty
whenever that text is non-empty; the function is total, so no exception
propagates. -/
theorem C4_metrics_failure_isolation (e : String) :
    (get_redis_cache_metrics (Except.error e)).keyspace_hits = 0 ∧
    (get_redis_cache_metrics (Except.error e)).keyspace_misses = 0 ∧
    (get_redis_cache_metrics (Except.error e)).total_requests = 0 ∧
    (get_redis_cache_metrics (Except.error e)).hit_ratio = 0 ∧
    (get_redis_cache_metrics (Except.error e)).miss_ratio = 0 ∧
    (get_redis_cache_metrics (Except.error e)).used_memory = 0 ∧
    (get_redis_cache_metrics (Except.error e)).connected_clients = 0 ∧
    (get_redis_cache_metrics (Except.error e)).total_commands_processed = 0 ∧
    (get_redis_cache_metrics (Except.error e)).instantaneous_ops_per_sec = 0 ∧
    (get_redis_cache_metrics (Except.error e)).cache_efficiency = "Error" ∧
    (get_redis_cache_metrics (Except.error e)).error = some e ∧
    (e ≠ "" → (get_redis_cache_metrics (Except.error e)).error.getD "" ≠ "") := by
  refine ⟨rfl, rfl, rfl, rfl, rfl, rfl, rfl, rfl, rfl, rfl, rfl, ?_⟩
  intro h
  simpa [get_redis_cache_metrics] using h

/-- C4 witness: a concrete connection failure yields the `Error` record
with a non-empty description. -/
theorem C4_metrics_failure_isolation_witness :
    (get_redis_cache_metrics (Except.error "Connection refused")).cache_efficiency
      = "Error" ∧
    (get_redis_cache_metrics (Except.error "Connection refused")).error.getD "" ≠ "" := by
  have h := C4_metrics_failure_isolation "Connection refused"
  exact ⟨h.2.2.2.2.2.2.2.2.2.1, h.2.2.2.2.2.2.2.2.2.2.2 (by decide)⟩

/-- C6: with an empty Store and a cold cache, `get_all_properties`
returns the empty sequence and caches it, and the subsequent call is a
hit returning the cached empty sequence without a Store query. -/
theorem C6_empty_store_cached :
    (get_all_properties [] none).result = [] ∧
    (get_all_properties [] none).cache = some ⟨[], 3600⟩ ∧
    (get_all_properties [] (get_all_properties [] none).cache).result = [] ∧
    (get_all_properties [] (get_all_properties [] none).cache).queriedStore = false :=
  ⟨rfl, rfl, rfl, rfl⟩

/-- C8 counterexample: the post_save handler with the key already absent
observes false but logs at info severity, not warning as claimed. -/
theorem C8_counterexample :
    (invalidate_cache_on_property_save true "Cozy Cottage" none).cacheDeleted = false ∧
    (invalidate_cache_on_property_save true "Cozy Cottage" none).log.severity
      = Severity.info ∧
    Severity.info ≠ Severity.warning := by
  exact ⟨rfl, rfl, by decide⟩

/-- C8 (amended): every absent-key deletion observes a boolean false
and, being total, raises nothing; `invalidate_properties_cache` and
`manual_cache_invalidation` log the absent case at warning (and the
deleted case at info, so at differing severities), while each signal
handler logs both of its messages at info severity. -/
theorem C8_absent_key_delete_logging (c : Cache) (created : Bool) (t : String) :
    (invalidate_properties_cache none).result = false ∧
    (invalidate_properties_cache none).log.severity = Severity.warning ∧
    (manual_cache_invalidation none).result = false ∧
    (manual_cache_invalidation none).log.severity = Severity.warning ∧
    (invalidate_cache_on_property_save created t none).cacheDeleted = false ∧
    (invalidate_cache_on_property_delete t none).cacheDeleted = false ∧
    (invalidate_cache_on_property_save created t c).log.severity = Severity.info ∧
    (invalidate_cache_on_property_delete t c).log.severity = Severity.info ∧
    (invalidate_properties_cache (some ⟨[], 3600⟩)).log.severity = Severity.info ∧
    (manual_cache_invalidation (some ⟨[], 3600⟩)).log.severity = Severity.info := by
  refine ⟨rfl, rfl, rfl, rfl, rfl, rfl, ?_, ?_, rfl, rfl⟩ <;> cases c <;> rfl

/-- C9: `get_cache_info` reports the fixed key, presence, item count
(0 when absent) and the runtime type name of the cached value (`none`
when absent), and returns the cache unchanged. -/
theorem C9_get_cache_info_spec (c : Cache) (e : CacheEntry) :
    (get_cache_info c).2 = c ∧
    (get_cache_info c).1.cache_key = "all_properties" ∧
    (get_cache_info c).1.existsKey = c.isSome ∧
    (get_cache_info none).1.existsKey = false ∧
    (get_cache_info none).1.count = 0 ∧
    (get_cache_info none).1.data_type = none ∧
    (get_cache_info (some e)).1.existsKey = true ∧
    (get_cache_info (some e)).1.count = e.value.length ∧
    (get_cache_info (some e)).1.data_type = some "list" := by
  refine ⟨?_, ?_, ?_, rfl, rfl, rfl, rfl, rfl, rfl⟩ <;> cases c <;> rfl

theorem roundHalfEven_intCast (n : ℤ) : roundHalfEven ((n : ℚ)) = n := by
  simp [roundHalfEven]

theorem round2_ninety : round2 (90 : ℚ) = 90 := by
  have h : ((90 : ℚ) * 100) = ((9000 : ℤ) : ℚ) := by norm_num
  show ((roundHalfEven ((90 : ℚ) * 100) : ℤ) : ℚ) / 100 = 90
  rw [h, roundHalfEven_intCast]
  norm_num

theorem round2_zero : round2 (0 : ℚ) = 0 := by
  have h : ((0 : ℚ) * 100) = ((0 : ℤ) : ℚ) := by norm_num
  show ((roundHalfEven ((0 : ℚ) * 100) : ℤ) : ℚ) / 100 = 0
  rw [h, roundHalfEven_intCast]
  norm_num

theorem roundHalfEven_tenThousandThirds : roundHalfEven (10000 / 3 : ℚ) = 3333 := by
  have hfloor : ⌊(10000 / 3 : ℚ)⌋ = 3333 := by
    rw [Int.floor_eq_iff]
    norm_num
  simp [roundHalfEven, hfloor]
  norm_num

theorem round2_hundredThirds : round2 (100 / 3 : ℚ) = 3333 / 100 := by
  have h : ((100 / 3 : ℚ) * 100) = 10000 / 3 := by norm_num
  show ((roundHalfEven ((100 / 3 : ℚ) * 100) : ℤ) : ℚ) / 100 = 3333 / 100
  rw [h, roundHalfEven_tenThousandThirds]
  norm_num

/-- C5 counterexample: at hits = 1, misses = 2 the returned hit ratio is
33.33, not the exact quotient 100/3 the claim states. -/
theorem C5_counterexample :
    (get_redis_cache_metrics (Except.ok (mkInfo 1 2))).hit_ratio = 3333 / 100 ∧
    (get_redis_cache_metrics (Except.ok (mkInfo 1 2))).hit_ratio
      ≠ ((mkInfo 1 2).keyspace_hits : ℚ)
          / (((mkInfo 1 2).keyspace_hits + (mkInfo 1 2).keyspace_misses : ℕ) : ℚ)
          * 100 := by
  have hx : exactHitRatio (mkInfo 1 2) = 100 / 3 := by
    norm_num [exactHitRatio, mkInfo]
  have hr : (get_redis_cache_metrics (Except.ok (mkInfo 1 2))).hit_ratio
      = round2 (exactHitRatio (mkInfo 1 2)) := rfl
  constructor
  · rw [hr, hx]
    exact round2_hundredThirds
  · rw [hr, hx, round2_hundredThirds]
    norm_num [mkInfo]

/-- C5 (amended): on the success path the code computes
total = hits + misses, the exact ratios hits/total*100 and
misses/total*100 (0 when total = 0, with no division error), returns
them rounded to two decimal places, and labels efficiency from the
exact hit ratio by the thresholds 90 / 70 / 50; hits = 90, misses = 10
yields hit_ratio 90.0 and label Excellent, and hits = 0, misses = 0
yields both ratios 0. -/
theorem C5_metrics_arithmetic (info : RedisInfo) :
    (get_redis_cache_metrics (Except.ok info)).total_requests
      = info.keyspace_hits + info.keyspace_misses ∧
    (get_redis_cache_metrics (Except.ok info)).hit_ratio
      = round2 (exactHitRatio info) ∧
    (get_redis_cache_metrics (Except.ok info)).miss_ratio
      = round2 (exactMissRatio info) ∧
    (get_redis_cache_metrics (Except.ok info)).cache_efficiency
      = (if 90 ≤ exactHitRatio info then "Excellent"
         else if 70 ≤ exactHitRatio info then "Good"
         else if 50 ≤ exactHitRatio info then "Fair"
         else "Poor") ∧
    (info.keyspace_hits = 90 → info.keyspace_misses = 10 →
      (get_redis_cache_metrics (Except.ok info)).hit_ratio = 90 ∧
      (get_redis_cache_metrics (Except.ok info)).cache_efficiency = "Excellent") ∧
    (info.keyspace_hits = 0 → info.keyspace_misses = 0 →
      (get_redis_cache_metrics (Except.ok info)).hit_ratio = 0 ∧
      (get_redis_cache_metrics (Except.ok info)).miss_ratio = 0) := by
  refine ⟨rfl, rfl, rfl, rfl, ?_, ?_⟩
  · intro h1 h2
    have hx : exactHitRatio info = 90 := by
      norm_num [exactHitRatio, h1, h2]
    constructor
    · show round2 (exactHitRatio info) = 90
      rw [hx]
      exact round2_ninety
    · show (if 90 ≤ exactHitRatio info then "Excellent"
          else if 70 ≤ exactHitRatio info then "Good"
          else if 50 ≤ exactHitRatio info then "Fair"
          else "Poor") = "Excellent"
      simp only [hx]
      norm_num
  · intro h1 h2
    have hx : exactHitRatio info = 0 := by
      norm_num [exactHitRatio, h1, h2]
    have hm : exactMissRatio info = 0 := by
      norm_num [exactMissRatio, h1, h2]
    constructor
    · show round2 (exactHitRatio info) = 0
      rw [hx]
      exact round2_zero
    · show round2 (exactMissRatio info) = 0
      rw [hm]
      exact round2_zero

/-- C5 witness: hits = 90, misses = 10 yields 90.0 and Excellent;
hits = 0, misses = 0 yields both ratios 0. -/
theorem C5_metrics_arithmetic_witness :
    (get_redis_cache_metrics (Except.ok (mkInfo 90 10))).hit_ratio = 90 ∧
    (get_redis_cache_metrics (Except.ok (mkInfo 90 10))).cache_efficiency
      = "Excellent" ∧
    (get_redis_cache_metrics (Except.ok (mkInfo 0 0))).hit_ratio = 0 ∧
    (get_redis_cache_metrics (Except.ok (mkInfo 0 0))).miss_ratio = 0 := by
  have h1 := (C5_metrics_arithmetic (mkInfo 90 10)).2.2.2.2.1 rfl rfl
  have h2 := (C5_metrics_arithmetic (mkInfo 0 0)).2.2.2.2.2 rfl rfl
  exact ⟨h1.1, h1.2, h2.1, h2.2⟩

/-- C10: the returned ratios are the exact ratios rounded to two
decimal places, and at hits = 1, misses = 2 the returned hit ratio
33.33 differs from the exact quotient. -/
theorem C10_ratios_rounded (info : RedisInfo) :
    (get_redis_cache_metrics (Except.ok info)).hit_ratio
      = round2 (exactHitRatio info) ∧
    (get_redis_cache_metrics (Except.ok info)).miss_ratio
      = round2 (exactMissRatio info) ∧
    (info.keyspace_hits = 1 → info.keyspace_misses = 2 →
      (get_redis_cache_metrics (Except.ok info)).hit_ratio = 3333 / 100 ∧
      (get_redis_cache_metrics (Except.ok info)).hit_ratio ≠ exactHitRatio info) := by
  refine ⟨rfl, rfl, ?_⟩
  intro h1 h2
  have hx : exactHitRatio info = 100 / 3 := by
    norm_num [exactHitRatio, h1, h2]
  constructor
  · show round2 (exactHitRatio info) = 3333 / 100
    rw [hx]
    exact round2_hundredThirds
  · show round2 (exactHitRatio info) ≠ exactHitRatio info
    rw [hx, round2_hundredThirds]
    norm_num

/-- C10 witness: the concrete INFO record with hits = 1, misses = 2. -/
theorem C10_ratios_rounded_witness :
    (get_redis_cache_metrics (Except.ok (mkInfo 1 2))).hit_ratio = 3333 / 100 ∧
    (get_redis_cache_metrics (Except.ok (mkInfo 1 2))).hit_ratio
      ≠ exactHitRatio (mkInfo 1 2) :=
  (C10_ratios_rounded (mkInfo 1 2)).2.2 rfl rfl

end PropertyListings
